import Mathlib

/-!
Verification of the MeetFlow pipeline core: the analysis engine's
multi-model fallback loop (backend/services/analysis_service.py) and the
transcription engine's segment accumulation, lazy model loading and
temp-file handling (backend/services/transcription_service.py).

Python strings are modelled as Lean `String` (a sequence of unicode code
points, matching Python's `len` and slicing semantics).  Python exception
messages are modelled as plain strings; raising is modelled as
`Except.error`.
-/

set_option autoImplicit false
set_option maxRecDepth 8192

/-- Python values as produced by `json.loads`: Python `None`, booleans,
numbers (integers suffice for our purposes), strings, lists and dicts.
Note `json.loads "null"` yields Python `None`, the very same value the
analysis service uses as its "no result yet" sentinel in
`analysis_data`. -/
inductive Py where
  | none
  | boolVal (b : Bool)
  | intVal (n : Int)
  | strVal (s : String)
  | listVal (elems : List Py)
  | dictVal (fields : List (String × Py))

/-- Outcome of one `self.client.chat.completions.create` call for a given
model name (analysis_service.py lines 113-121): the call either raises a
`json.JSONDecodeError`, raises some other exception (network, auth,
rate-limit, ...), or returns a response whose message content is the given
string. -/
inductive RequestOutcome where
  | raiseJsonDecode (msg : String)
  | raiseOther (msg : String)
  | success (content : String)
deriving DecidableEq

/-- Environment of `analyze_meeting`: the behaviour of the remote request
for each candidate model name, and the behaviour of `json.loads` on
response content (`Except.error` carries the `json.JSONDecodeError`
message, `Except.ok` the parsed Python value). -/
structure GroqEnv where
  request : String → RequestOutcome
  loads : String → Except String Py

/-- The degraded fallback dict built at analysis_service.py lines 133-136:
the raw response content, truncated to its first 500 characters when
longer than 500, as `resume_executif`, with an empty `action_items`
list. -/
def degradedResult (raw_content : String) : Py :=
  .dictVal
    [("resume_executif",
        .strVal (if raw_content.length > 500 then raw_content.take 500 else raw_content)),
     ("action_items", .listVal [])]

/-- The candidate loop of `analyze_meeting` (analysis_service.py lines
111-142) with its three mutable locals threaded explicitly:
`analysis_data` (where `Py.none` plays the role of Python `None`),
`last_error` and `response` (the content of the last response object
assigned, `none` for Python `None`).  The first component of the result
records the model names a request was actually issued for, in order; the
loop logic itself is untouched instrumentation aside.  A successful parse
(`break` at line 125) or a parse failure with a response present (`break`
at line 137) ends the loop; request-level failures record the error and
`continue`. -/
def analyzeGo (env : GroqEnv) :
    List String → Py → Option String → Option String →
    List String × Py × Option String
  | [], data, lastErr, _resp => ([], data, lastErr)
  | m :: rest, data, lastErr, resp =>
    match env.request m with
    | .success content =>
      match env.loads content with
      | .ok v => ([m], v, lastErr)
      | .error e => ([m], degradedResult content, some e)
    | .raiseJsonDecode e =>
      match resp with
      | some raw => ([m], degradedResult raw, some e)
      | none =>
        let r := analyzeGo env rest data (some e) none
        (m :: r.1, r.2)
    | .raiseOther e =>
      let r := analyzeGo env rest data (some e) resp
      (m :: r.1, r.2)

/-- Python `str(last_error)`: `str(None)` is `"None"`, an exception
renders as its message. -/
def strOfLastError : Option String → String
  | Option.none => "None"
  | Option.some e => e

/-- The epilogue of `analyze_meeting` (analysis_service.py lines 144-147):
if `analysis_data` is still Python `None` after the loop, raise
`Exception(f"All models failed. Last error: {str(last_error)}")`,
otherwise return `analysis_data`. -/
def finishAnalysis (data : Py) (lastErr : Option String) : Except String Py :=
  match data with
  | Py.none => .error ("All models failed. Last error: " ++ strOfLastError lastErr)
  | d => .ok d

/-- `AnalysisService.analyze_meeting` (analysis_service.py lines 66-147)
for an explicit candidate list.  (The Python `models_to_try is None`
default merely substitutes the fixed three-element list; all claims are
about explicit lists.) -/
def analyze_meeting (env : GroqEnv) (models_to_try : List String) :
    Except String Py :=
  finishAnalysis (analyzeGo env models_to_try Py.none none none).2.1
    (analyzeGo env models_to_try Py.none none none).2.2

/-- The model names `analyze_meeting` actually issues a request for, in
order. -/
def analyzeRequests (env : GroqEnv) (models_to_try : List String) :
    List String :=
  (analyzeGo env models_to_try Py.none none none).1

/-- Whether a request outcome is a request-level failure (an exception
raised before a response body exists). -/
def isRequestFailure : RequestOutcome → Bool
  | .success _ => false
  | _ => true

/-- The failure cause recorded into `last_error` by a failing request
outcome. -/
def failCause : RequestOutcome → Option String
  | .success _ => none
  | .raiseJsonDecode e => some e
  | .raiseOther e => some e

/-- The value of `last_error` after the loop has processed the given
candidates without breaking. -/
def lastErrorAfter (env : GroqEnv) (pre : List String) (lastErr : Option String) :
    Option String :=
  pre.foldl (fun acc m =>
    match failCause (env.request m) with
    | some e => some e
    | none => acc) lastErr

/-- Python `dict.get(key, default)` on the field list of a parsed JSON
object (duplicate keys cannot occur in a dict produced by `json.loads`). -/
def pyGet (kvs : List (String × Py)) (k : String) (default : Py) : Py :=
  match kvs.lookup k with
  | Option.some v => v
  | Option.none => default

/-- frontend/app.py line 216: `item.get("responsable", "Not assigned")`,
the only owner defaulting performed anywhere in the repository. -/
def actionItemResponsable (item_fields : List (String × Py)) : Py :=
  pyGet item_fields "responsable" (Py.strVal "Not assigned")

/-- A 501-character response body (all `x`), for exercising the 500
character truncation of the degraded fallback. -/
def contentW1 : String := String.mk (List.replicate 501 (Char.ofNat 120))

/-- Environment for the C1 witness: the first candidate fails at the
request level, every other candidate returns a 501-character body that
`json.loads` rejects. -/
def envW1 : GroqEnv :=
  { request := fun m =>
      if m = "llama-3.1-8b-instant" then .raiseOther "Rate limit reached"
      else .success contentW1,
    loads := fun _ => .error "Expecting value: line 1 column 1 (char 0)" }

/-- Environment for the C2 counterexample: the candidate's request
succeeds and the body is the valid JSON text `null`, which `json.loads`
parses to Python `None`. -/
def envC2null : GroqEnv :=
  { request := fun _ => .success "null", loads := fun _ => .ok Py.none }

/-- Environment for the C2 witness, part one: both candidates fail at the
request level with distinct causes. -/
def envW2 : GroqEnv :=
  { request := fun m =>
      if m = "llama-3.1-8b-instant" then .raiseOther "Connection error"
      else .raiseOther "Rate limit reached",
    loads := fun _ => .ok (Py.dictVal []) }

/-- Environment for the C2 witness, part two: the candidate returns prose
that is not valid JSON. -/
def envW2b : GroqEnv :=
  { request := fun _ => .success "not json",
    loads := fun _ => .error "Expecting value: line 1 column 1 (char 0)" }

/-- Environment for the C3 witness: candidate A fails at the request
level, candidate B returns a well-formed empty JSON object. -/
def envW3 : GroqEnv :=
  { request := fun m =>
      if m = "A" then .raiseOther "timeout" else .success "\x7b\x7d",
    loads := fun _ => .ok (Py.dictVal []) }

/-- The fields of the structured response used for C4: one action item
with a task but no responsible-party field. -/
def fieldsC4 : List (String × Py) :=
  [("resume_executif", Py.strVal "Team discussed report deadline."),
   ("action_items",
      Py.listVal [Py.dictVal [("tache", Py.strVal "Finish report")]])]

/-- Environment for C4: the candidate returns a structured response whose
single action item lacks the responsible-party field. -/
def envC4 : GroqEnv :=
  { request := fun _ => .success "response body",
    loads := fun _ => .ok (Py.dictVal fieldsC4) }

/-- Environment for the C9 counterexample: the response body is the valid
JSON text `null`; `json.loads` yields Python `None`. -/
def envC9 : GroqEnv :=
  { request := fun _ => .success "null", loads := fun _ => .ok Py.none }

/-- Environment for the C9 witness: the response body is a JSON array,
valid JSON that is not an object and carries neither expected field. -/
def envW9 : GroqEnv :=
  { request := fun _ => .success "[1, 2]",
    loads := fun _ => .ok (Py.listVal [Py.intVal 1, Py.intVal 2]) }

/-- Python `str.strip()` on the underlying character sequence: drop
trailing, then leading, whitespace (the order is immaterial; trailing
first eases reasoning about the loop's trailing separator). -/
def stripChars (l : List Char) : List Char :=
  ((l.reverse.dropWhile Char.isWhitespace).reverse).dropWhile Char.isWhitespace

/-- Python `str.strip()` (transcription_service.py line 85). -/
def pyStrip (s : String) : String := String.mk (stripChars s.data)

/-- One segment yielded by `self.model.transcribe`; only its `text`
attribute is consumed by the service. -/
structure Segment where
  text : String
deriving DecidableEq

/-- The `info` object returned by `self.model.transcribe`: the language
identification results.  Float values are only copied, never computed
with, so they are carried opaquely (as `Rat`); `duration` is `none` when
the attribute is absent. -/
structure TranscriptionInfo where
  language : String
  language_probability : Rat
  duration : Option Rat

/-- The metadata dict built at transcription_service.py lines 88-92:
`info.language`, `info.language_probability` and
`getattr(info, "duration", None)` passed through unchanged. -/
structure Metadata where
  language : String
  language_probability : Rat
  duration : Option Rat

/-- Lines 88-92 of transcription_service.py. -/
def mkMetadata (info : TranscriptionInfo) : Metadata :=
  { language := info.language,
    language_probability := info.language_probability,
    duration := info.duration }

/-- `TranscriptionService.load_model` (transcription_service.py lines
25-47) acting on the `self.model` state (`none` = unloaded).  `M`
abstracts the `WhisperModel` handle; `instantiate` is the outcome of
`WhisperModel(self.model_size, device="cpu", compute_type="int8")`,
with `Except.error` meaning the constructor raised.  A cached model is
returned untouched; a constructor failure is re-raised with the
"Error loading Whisper model: " prefix and leaves the state unloaded. -/
def load_model {M : Type} (model : Option M) (instantiate : Except String M) :
    Option M × Except String M :=
  match model with
  | some m => (some m, .ok m)
  | none =>
    match instantiate with
    | .ok m => (some m, .ok m)
    | .error e => (none, .error ("Error loading Whisper model: " ++ e))

/-- The segment accumulation of transcription_service.py lines 81-85: the
loop `transcription_text += segment.text + " "` over all yielded
segments, followed by `.strip()`. -/
def combineSegments (segments : List Segment) : String :=
  pyStrip (segments.foldl (fun acc s => acc ++ s.text ++ " ") "")

/-- `TranscriptionService.transcribe_audio_file` (transcription_service.py
lines 49-97).  `run` stands for the `self.model.transcribe` call for this
invocation's path, language hint and beam size: `Except.error e` means
the call or the lazy consumption of its segment generator raised `e`,
`Except.ok` carries the fully yielded finite segment sequence and the
info object.  Returns the `self.model` state after the call together
with the result; any failure inside the `try` is re-raised with the
"Error during transcription: " prefix, while a lazy-load failure
propagates exactly as raised by `load_model` (the `if self.model is
None: self.load_model()` at lines 69-70 sits outside the `try`). -/
def transcribe_audio_file {M : Type} (model : Option M)
    (instantiate : Except String M)
    (run : M → Except String (List Segment × TranscriptionInfo)) :
    Option M × Except String (String × Metadata) :=
  match load_model model instantiate with
  | (st, .error e) => (st, .error e)
  | (st, .ok m) =>
    match run m with
    | .error e => (st, .error ("Error during transcription: " ++ e))
    | .ok (segments, info) =>
      (st, .ok (combineSegments segments, mkMetadata info))

/-- How far the temp-file code of `transcribe_uploaded_file`
(transcription_service.py lines 123-129) gets before the transcription
stage: `tempfile.NamedTemporaryFile` itself raising (no file reaches the
disk), `temp_file.write(uploaded_file.getbuffer())` raising (the file is
already on disk but `temp_file_path` is still `None`), or the file being
written, closed, and its path recorded in `temp_file_path`. -/
inductive UploadOutcome where
  | tempCreateFails (msg : String)
  | writeFails (msg : String)
  | written

/-- `TranscriptionService.transcribe_uploaded_file`
(transcription_service.py lines 99-156).  The first component reports
whether the temporary file is still on disk after the call returns
(`os.unlink` itself is modelled as succeeding).  Once `temp_file_path`
holds the path, the `except` handler (lines 140-147) and the `finally`
block (lines 149-156) delete the file on every exit; when the write
raised before `temp_file_path = temp_file.name` executed, both cleanup
sites skip deletion because `temp_file_path` is `None`, and the file
remains on disk. -/
def transcribe_uploaded_file {M : Type} (model : Option M)
    (instantiate : Except String M)
    (run : M → Except String (List Segment × TranscriptionInfo))
    (upload : UploadOutcome) :
    Bool × Option M × Except String (String × Metadata) :=
  match upload with
  | .tempCreateFails e => (false, model, .error e)
  | .writeFails e => (true, model, .error e)
  | .written =>
    match transcribe_audio_file model instantiate run with
    | (st, r) => (false, st, r)

/-- The spec-side reading of the text contract: the "segment texts
concatenated in emission order, separated by a single space". -/
def sepBySpace : List String → String
  | [] => ""
  | [t] => t
  | t :: u :: rest => t ++ " " ++ sepBySpace (u :: rest)

/-- Info object for the C5 counterexample. -/
def infoC5 : TranscriptionInfo :=
  { language := "en", language_probability := 98 / 100, duration := some 3 }

/-- Info object for the C5 witness. -/
def infoW5 : TranscriptionInfo :=
  { language := "en", language_probability := 97 / 100, duration := some 2 }

/-- Segments for the C5 witness. -/
def segsW5 : List Segment := [{ text := "We need Alice to finish the report." }]

/-- Info object for the C6 witness. -/
def infoW6 : TranscriptionInfo :=
  { language := "fr", language_probability := 9 / 10, duration := none }

/-- Segments for the C6 witness: two segments whose texts join with a
single space. -/
def segsW6 : List Segment := [{ text := "Hello" }, { text := "world." }]

/-- Info object for the C8 theorem's successful-decode conjunct. -/
def infoW8 : TranscriptionInfo :=
  { language := "en", language_probability := 1, duration := some 1 }

/-- Successful model run for the C5 witness. -/
def runW5 : Unit → Except String (List Segment × TranscriptionInfo) :=
  fun _ => .ok (segsW5, infoW5)

/-- Failing model run for the C5 witness. -/
def runW5err : Unit → Except String (List Segment × TranscriptionInfo) :=
  fun _ => .error "failed to decode audio"

/-- Successful model run for the C6 witness. -/
def runW6 : Unit → Except String (List Segment × TranscriptionInfo) :=
  fun _ => .ok (segsW6, infoW6)

theorem isRequestFailure_cause (o : RequestOutcome)
    (h : isRequestFailure o = true) : ∃ e, failCause o = some e := by
  cases o with
  | success content => exact absurd h (by simp [isRequestFailure])
  | raiseJsonDecode e => exact ⟨e, rfl⟩
  | raiseOther e => exact ⟨e, rfl⟩

theorem analyzeGo_step_fail (env : GroqEnv) (m : String) (rest : List String)
    (data : Py) (lastErr : Option String) (e : String)
    (h : failCause (env.request m) = some e) :
    analyzeGo env (m :: rest) data lastErr none =
      (m :: (analyzeGo env rest data (some e) none).1,
        (analyzeGo env rest data (some e) none).2) := by
  cases hr : env.request m with
  | success content => simp [failCause, hr] at h
  | raiseJsonDecode msg =>
    simp only [failCause, hr, Option.some.injEq] at h
    subst h
    simp [analyzeGo, hr]
  | raiseOther msg =>
    simp only [failCause, hr, Option.some.injEq] at h
    subst h
    simp [analyzeGo, hr]

theorem analyzeGo_append (env : GroqEnv) (pre ms : List String) (data : Py)
    (lastErr : Option String)
    (h : ∀ x ∈ pre, isRequestFailure (env.request x) = true) :
    analyzeGo env (pre ++ ms) data lastErr none =
      (pre ++ (analyzeGo env ms data (lastErrorAfter env pre lastErr) none).1,
       (analyzeGo env ms data (lastErrorAfter env pre lastErr) none).2) := by
  induction pre generalizing lastErr with
  | nil => simp [lastErrorAfter]
  | cons a pre ih =>
    obtain ⟨e, he⟩ := isRequestFailure_cause _ (h a (by simp))
    rw [List.cons_append,
      analyzeGo_step_fail env a (pre ++ ms) data lastErr e he,
      ih (some e) (fun x hx => h x (by simp [hx]))]
    simp [lastErrorAfter, he]

theorem analyzeGo_all_fail (env : GroqEnv) (ms : List String) (data : Py)
    (lastErr : Option String)
    (h : ∀ x ∈ ms, isRequestFailure (env.request x) = true) :
    analyzeGo env ms data lastErr none =
      (ms, data, lastErrorAfter env ms lastErr) := by
  induction ms generalizing lastErr with
  | nil => simp [analyzeGo, lastErrorAfter]
  | cons a ms ih =>
    obtain ⟨e, he⟩ := isRequestFailure_cause _ (h a (by simp))
    rw [analyzeGo_step_fail env a ms data lastErr e he,
      ih (some e) (fun x hx => h x (by simp [hx]))]
    simp [lastErrorAfter, he]

theorem analyzeGo_first_parse_ok (env : GroqEnv) (pre : List String)
    (m : String) (rest : List String) (content : String) (v : Py)
    (hpre : ∀ x ∈ pre, isRequestFailure (env.request x) = true)
    (hm : env.request m = .success content)
    (hl : env.loads content = .ok v) :
    analyzeGo env (pre ++ m :: rest) Py.none none none =
      (pre ++ [m], v, lastErrorAfter env pre none) := by
  rw [analyzeGo_append env pre (m :: rest) Py.none none hpre]
  simp [analyzeGo, hm, hl]

theorem analyzeGo_first_parse_err (env : GroqEnv) (pre : List String)
    (m : String) (rest : List String) (content : String) (e : String)
    (hpre : ∀ x ∈ pre, isRequestFailure (env.request x) = true)
    (hm : env.request m = .success content)
    (hl : env.loads content = .error e) :
    analyzeGo env (pre ++ m :: rest) Py.none none none =
      (pre ++ [m], degradedResult content, some e) := by
  rw [analyzeGo_append env pre (m :: rest) Py.none none hpre]
  simp [analyzeGo, hm, hl]

theorem finishAnalysis_ok (v : Py) (hv : v ≠ Py.none) (lastErr : Option String) :
    finishAnalysis v lastErr = .ok v := by
  cases v with
  | none => exact absurd rfl hv
  | boolVal b => rfl
  | intVal n => rfl
  | strVal s => rfl
  | listVal elems => rfl
  | dictVal fields => rfl

theorem analyzeGo_requests_take (env : GroqEnv) :
    ∀ (ms : List String) (data : Py) (lastErr resp : Option String),
      ∃ k, (analyzeGo env ms data lastErr resp).1 = ms.take k := by
  intro ms
  induction ms with
  | nil => exact fun data lastErr resp => ⟨0, rfl⟩
  | cons m rest ih =>
    intro data lastErr resp
    cases hr : env.request m with
    | success content =>
      cases hl : env.loads content with
      | ok v => exact ⟨1, by simp [analyzeGo, hr, hl]⟩
      | error e => exact ⟨1, by simp [analyzeGo, hr, hl]⟩
    | raiseJsonDecode e =>
      cases resp with
      | some raw => exact ⟨1, by simp [analyzeGo, hr]⟩
      | none =>
        obtain ⟨k, hk⟩ := ih data (some e) none
        exact ⟨k + 1, by simp [analyzeGo, hr, hk]⟩
    | raiseOther e =>
      obtain ⟨k, hk⟩ := ih data (some e) resp
      exact ⟨k + 1, by simp [analyzeGo, hr, hk]⟩

/-- C1: whenever the loop reaches a candidate whose request succeeds but
whose response body fails JSON parsing (all earlier candidates having
failed at the request level), `analyze_meeting` returns — regardless of
the remaining candidates, to which no request is issued — a degraded
result whose `resume_executif` is the first 500 characters of the raw
body when longer than 500 (the whole body otherwise) and whose
`action_items` list is empty. -/
theorem C1_parse_failure_degrades (env : GroqEnv) (pre : List String)
    (m : String) (rest : List String) (content e : String)
    (hpre : ∀ x ∈ pre, isRequestFailure (env.request x) = true)
    (hm : env.request m = .success content)
    (hl : env.loads content = .error e) :
    analyze_meeting env (pre ++ m :: rest)
        = .ok (Py.dictVal
            [("resume_executif",
                Py.strVal (if content.length > 500 then content.take 500 else content)),
             ("action_items", Py.listVal [])])
      ∧ analyzeRequests env (pre ++ m :: rest) = pre ++ [m] := by
  constructor
  · unfold analyze_meeting
    rw [analyzeGo_first_parse_err env pre m rest content e hpre hm hl]
    rfl
  · unfold analyzeRequests
    rw [analyzeGo_first_parse_err env pre m rest content e hpre hm hl]

/-- C1 witness: with the first candidate failing at the request level and
the second returning a 501-character unparseable body, the call returns
the degraded truncated result and issues requests to exactly the first
two candidates. -/
theorem C1_witness :
    (∀ x ∈ ["llama-3.1-8b-instant"], isRequestFailure (envW1.request x) = true)
    ∧ envW1.request "llama-3.3-70b-versatile" = .success contentW1
    ∧ envW1.loads contentW1 = .error "Expecting value: line 1 column 1 (char 0)"
    ∧ contentW1.length > 500
    ∧ (analyze_meeting envW1
          (["llama-3.1-8b-instant"] ++ "llama-3.3-70b-versatile" :: ["mixtral-8x7b-32768"])
          = .ok (Py.dictVal
              [("resume_executif",
                  Py.strVal (if contentW1.length > 500 then contentW1.take 500 else contentW1)),
               ("action_items", Py.listVal [])])
        ∧ analyzeRequests envW1
            (["llama-3.1-8b-instant"] ++ "llama-3.3-70b-versatile" :: ["mixtral-8x7b-32768"])
            = ["llama-3.1-8b-instant"] ++ ["llama-3.3-70b-versatile"]) :=
  ⟨by decide, rfl, rfl, by decide,
    C1_parse_failure_degrades envW1 ["llama-3.1-8b-instant"] "llama-3.3-70b-versatile"
      ["mixtral-8x7b-32768"] contentW1 "Expecting value: line 1 column 1 (char 0)"
      (by decide) rfl rfl⟩

/-- C2 counterexample: a candidate whose request succeeds and returns the
valid JSON body `null` still makes `analyze_meeting` raise the
all-models-failed exception, because `json.loads "null"` is Python `None`
— indistinguishable from the loop's no-result sentinel.  The claim as
stated (any returned content implies no raise) is therefore false. -/
theorem C2_counterexample :
    envC2null.request "llama-3.1-8b-instant" = .success "null"
    ∧ analyze_meeting envC2null ["llama-3.1-8b-instant"]
        = .error "All models failed. Last error: None" := ⟨rfl, rfl⟩

/-- C2 (amended): (a) when every candidate fails at the request level, the
call raises the all-models-failed exception carrying the cause of the
last candidate's failure; (b) when some candidate returns content (all
before it failing at the request level) and that content does not parse
to JSON `null`, the call never raises. -/
theorem C2_exhaustion_and_content :
    (∀ (env : GroqEnv) (pre : List String) (mLast : String),
        (∀ x ∈ pre ++ [mLast], isRequestFailure (env.request x) = true) →
        ∃ e, failCause (env.request mLast) = some e ∧
          analyze_meeting env (pre ++ [mLast])
            = .error ("All models failed. Last error: " ++ e))
    ∧ (∀ (env : GroqEnv) (pre : List String) (m : String) (rest : List String)
          (content : String),
        (∀ x ∈ pre, isRequestFailure (env.request x) = true) →
        env.request m = .success content →
        env.loads content ≠ .ok Py.none →
        ∃ d, analyze_meeting env (pre ++ m :: rest) = .ok d) := by
  constructor
  · intro env pre mLast hall
    obtain ⟨e, he⟩ := isRequestFailure_cause _ (hall mLast (by simp))
    refine ⟨e, he, ?_⟩
    unfold analyze_meeting
    rw [analyzeGo_all_fail env (pre ++ [mLast]) Py.none none hall]
    have hle : lastErrorAfter env (pre ++ [mLast]) none = some e := by
      simp [lastErrorAfter, List.foldl_append, he]
    simp [finishAnalysis, hle, strOfLastError]
  · intro env pre m rest content hpre hm hl
    cases hr : env.loads content with
    | error e =>
      refine ⟨degradedResult content, ?_⟩
      unfold analyze_meeting
      rw [analyzeGo_first_parse_err env pre m rest content e hpre hm hr]
      rfl
    | ok v =>
      have hv : v ≠ Py.none := by
        intro h
        subst h
        exact hl hr
      refine ⟨v, ?_⟩
      unfold analyze_meeting
      rw [analyzeGo_first_parse_ok env pre m rest content v hpre hm hr]
      exact finishAnalysis_ok v hv _

/-- C2 witness: part (a) at two request-failing candidates (the error
carries the second candidate's cause), part (b) at one candidate
returning non-JSON prose (the call returns a degraded result rather than
raising). -/
theorem C2_witness :
    (∃ e, failCause (envW2.request "llama-3.3-70b-versatile") = some e ∧
        analyze_meeting envW2 (["llama-3.1-8b-instant"] ++ ["llama-3.3-70b-versatile"])
          = .error ("All models failed. Last error: " ++ e))
    ∧ (∃ d, analyze_meeting envW2b ([] ++ "llama-3.1-8b-instant" :: []) = .ok d) :=
  ⟨C2_exhaustion_and_content.1 envW2 ["llama-3.1-8b-instant"] "llama-3.3-70b-versatile"
      (by decide),
   C2_exhaustion_and_content.2 envW2b [] "llama-3.1-8b-instant" [] "not json"
      (by simp) rfl (by intro h; cases h)⟩

/-- C3: (a) the model names `analyze_meeting` issues requests for are an
initial segment of the candidate list — candidates are tried strictly in
list order, one request per candidate, none tried after the loop breaks;
(b) for `[A, B]` with A failing at the request level and B succeeding
with a well-formed structured (JSON object) response, the result equals
that of calling with `[B]` alone. -/
theorem C3_order_and_single_attempt :
    (∀ (env : GroqEnv) (ms : List String), ∃ k, analyzeRequests env ms = ms.take k)
    ∧ (∀ (env : GroqEnv) (A B content : String) (fields : List (String × Py)),
        isRequestFailure (env.request A) = true →
        env.request B = .success content →
        env.loads content = .ok (Py.dictVal fields) →
        analyze_meeting env [A, B] = analyze_meeting env [B]) := by
  constructor
  · intro env ms
    exact analyzeGo_requests_take env ms Py.none none none
  · intro env A B content fields hA hB hl
    have hAB : analyze_meeting env ([A] ++ B :: []) = .ok (Py.dictVal fields) := by
      unfold analyze_meeting
      rw [analyzeGo_first_parse_ok env [A] B [] content (Py.dictVal fields)
        (by intro x hx; simp at hx; subst hx; exact hA) hB hl]
      exact finishAnalysis_ok _ (by intro h; cases h) _
    have hB1 : analyze_meeting env ([] ++ B :: []) = .ok (Py.dictVal fields) := by
      unfold analyze_meeting
      rw [analyzeGo_first_parse_ok env [] B [] content (Py.dictVal fields)
        (by simp) hB hl]
      exact finishAnalysis_ok _ (by intro h; cases h) _
    exact hAB.trans hB1.symm

/-- C3 witness: with A failing at the request level and B returning a
well-formed object, `analyze_meeting` on `["A", "B"]` equals
`analyze_meeting` on `["B"]`, and the issued requests are an initial
segment of the candidate list. -/
theorem C3_witness :
    isRequestFailure (envW3.request "A") = true
    ∧ envW3.request "B" = .success "\x7b\x7d"
    ∧ envW3.loads "\x7b\x7d" = .ok (Py.dictVal [])
    ∧ analyze_meeting envW3 ["A", "B"] = analyze_meeting envW3 ["B"]
    ∧ (∃ k, analyzeRequests envW3 ["A", "B"] = ["A", "B"].take k) :=
  ⟨by decide, rfl, rfl,
   C3_order_and_single_attempt.2 envW3 "A" "B" "\x7b\x7d" [] (by decide) rfl rfl,
   C3_order_and_single_attempt.1 envW3 ["A", "B"]⟩

/-- C4 counterexample: a structured response whose action item lacks the
responsible-party field is returned by `analyze_meeting` completely
unchanged — the item's owner field is absent, not the "To be determined"
sentinel; the only defaulting in the repository is the frontend's render
default, whose value is "Not assigned", not "To be determined". -/
theorem C4_counterexample :
    analyze_meeting envC4 ["llama-3.1-8b-instant"] = .ok (Py.dictVal fieldsC4)
    ∧ List.lookup "responsable" [("tache", Py.strVal "Finish report")] = Option.none
    ∧ actionItemResponsable [("tache", Py.strVal "Finish report")]
        = Py.strVal "Not assigned"
    ∧ Py.strVal "Not assigned" ≠ Py.strVal "To be determined" := by
  refine ⟨rfl, rfl, rfl, ?_⟩
  intro h
  injection h with h2
  exact absurd h2 (by decide)

/-- C4 (amended): `analyze_meeting` performs no owner defaulting at all —
a structured response is returned unchanged, so an action item lacking
the responsible-party field keeps that field absent; the rendering layer
(frontend/app.py line 216) substitutes the string "Not assigned" for a
missing owner when displaying. -/
theorem C4_owner_defaulting :
    (∀ (env : GroqEnv) (pre : List String) (m : String) (rest : List String)
        (content : String) (fields : List (String × Py)),
        (∀ x ∈ pre, isRequestFailure (env.request x) = true) →
        env.request m = .success content →
        env.loads content = .ok (Py.dictVal fields) →
        analyze_meeting env (pre ++ m :: rest) = .ok (Py.dictVal fields))
    ∧ (∀ item_fields : List (String × Py),
        List.lookup "responsable" item_fields = Option.none →
        actionItemResponsable item_fields = Py.strVal "Not assigned") := by
  constructor
  · intro env pre m rest content fields hpre hm hl
    unfold analyze_meeting
    rw [analyzeGo_first_parse_ok env pre m rest content (Py.dictVal fields) hpre hm hl]
    exact finishAnalysis_ok _ (by intro h; cases h) _
  · intro item_fields h
    unfold actionItemResponsable pyGet
    rw [h]

/-- C4 witness: the amended claim at the concrete missing-owner response:
the parsed dict comes back unchanged and the frontend default for the
ownerless item is "Not assigned". -/
theorem C4_witness :
    envC4.request "llama-3.1-8b-instant" = .success "response body"
    ∧ envC4.loads "response body" = .ok (Py.dictVal fieldsC4)
    ∧ analyze_meeting envC4 ([] ++ "llama-3.1-8b-instant" :: []) = .ok (Py.dictVal fieldsC4)
    ∧ List.lookup "responsable" [("tache", Py.strVal "Finish report")] = Option.none
    ∧ actionItemResponsable [("tache", Py.strVal "Finish report")]
        = Py.strVal "Not assigned" :=
  ⟨rfl, rfl,
   C4_owner_defaulting.1 envC4 [] "llama-3.1-8b-instant" [] "response body" fieldsC4
      (by simp) rfl rfl,
   rfl,
   C4_owner_defaulting.2 [("tache", Py.strVal "Finish report")] rfl⟩

/-- C9 counterexample: the response body `null` is valid JSON, yet
`analyze_meeting` does not return the parsed value — it raises the
all-models-failed exception, because the parsed Python `None` is the
loop's own no-result sentinel. -/
theorem C9_counterexample :
    envC9.request "llama-3.1-8b-instant" = .success "null"
    ∧ envC9.loads "null" = .ok Py.none
    ∧ analyze_meeting envC9 ["llama-3.1-8b-instant"]
        = .error "All models failed. Last error: None" := ⟨rfl, rfl, rfl⟩

/-- C9 (amended): (a) any response body parsing to a JSON value other
than `null` — objects, arrays, strings, numbers, objects missing both
expected fields — is returned unchanged with no schema validation;
(b) a body parsing to JSON `null` instead triggers the all-models-failed
exception, with whatever failure cause the earlier candidates recorded. -/
theorem C9_passthrough :
    (∀ (env : GroqEnv) (pre : List String) (m : String) (rest : List String)
        (content : String) (v : Py),
        (∀ x ∈ pre, isRequestFailure (env.request x) = true) →
        env.request m = .success content →
        env.loads content = .ok v → v ≠ Py.none →
        analyze_meeting env (pre ++ m :: rest) = .ok v)
    ∧ (∀ (env : GroqEnv) (pre : List String) (m : String) (rest : List String)
        (content : String),
        (∀ x ∈ pre, isRequestFailure (env.request x) = true) →
        env.request m = .success content →
        env.loads content = .ok Py.none →
        analyze_meeting env (pre ++ m :: rest)
          = .error ("All models failed. Last error: "
              ++ strOfLastError (lastErrorAfter env pre none))) := by
  constructor
  · intro env pre m rest content v hpre hm hl hv
    unfold analyze_meeting
    rw [analyzeGo_first_parse_ok env pre m rest content v hpre hm hl]
    exact finishAnalysis_ok v hv _
  · intro env pre m rest content hpre hm hl
    unfold analyze_meeting
    rw [analyzeGo_first_parse_ok env pre m rest content Py.none hpre hm hl]
    rfl

/-- C9 witness: a JSON array body — valid JSON, not an object, carrying
neither expected field — is returned parsed and unchanged. -/
theorem C9_witness :
    envW9.request "llama-3.1-8b-instant" = .success "[1, 2]"
    ∧ envW9.loads "[1, 2]" = .ok (Py.listVal [Py.intVal 1, Py.intVal 2])
    ∧ analyze_meeting envW9 ([] ++ "llama-3.1-8b-instant" :: [])
        = .ok (Py.listVal [Py.intVal 1, Py.intVal 2]) :=
  ⟨rfl, rfl,
   C9_passthrough.1 envW9 [] "llama-3.1-8b-instant" [] "[1, 2]"
      (Py.listVal [Py.intVal 1, Py.intVal 2]) (by simp) rfl rfl
      (by intro h; cases h)⟩

/-- C10: calling `analyze_meeting` with an explicitly empty candidate list
issues no request at all and raises the all-models-failed exception with
the `None` sentinel as the reported last error. -/
theorem C10_empty_candidates :
    ∀ env : GroqEnv,
      analyze_meeting env [] = .error "All models failed. Last error: None"
      ∧ analyzeRequests env [] = [] :=
  fun _env => ⟨rfl, rfl⟩

theorem string_data_append (a b : String) : (a ++ b).data = a.data ++ b.data := rfl

theorem string_space_data : (" " : String).data = [Char.ofNat 32] := rfl

theorem string_empty_data : ("" : String).data = [] := rfl

theorem space_isWhitespace : (Char.ofNat 32).isWhitespace = true := by decide

theorem foldl_segs_data (segs : List Segment) (init : String) :
    (segs.foldl (fun acc s => acc ++ s.text ++ " ") init).data
      = init.data ++ (segs.map (fun s => s.text.data ++ [Char.ofNat 32])).flatten := by
  induction segs generalizing init with
  | nil => simp
  | cons s segs ih =>
    rw [List.foldl_cons, ih]
    simp [string_data_append, string_space_data, List.flatten_cons]

theorem flatten_map_sepBySpace (t : String) (ts : List String) :
    ((t :: ts).map (fun u => u.data ++ [Char.ofNat 32])).flatten
      = (sepBySpace (t :: ts)).data ++ [Char.ofNat 32] := by
  induction ts generalizing t with
  | nil => simp [sepBySpace]
  | cons u ts ih =>
    simp only [List.map_cons, List.flatten_cons] at ih ⊢
    rw [ih u]
    simp [sepBySpace, string_data_append, string_space_data]

theorem stripChars_append_space (l : List Char) :
    stripChars (l ++ [Char.ofNat 32]) = stripChars l := by
  simp [stripChars, List.reverse_append, List.dropWhile_cons, space_isWhitespace]

theorem combineSegments_eq_sepBySpace (segs : List Segment) :
    combineSegments segs = pyStrip (sepBySpace (segs.map Segment.text)) := by
  unfold combineSegments pyStrip
  congr 1
  rw [foldl_segs_data]
  have hmap : segs.map (fun s => s.text.data ++ [Char.ofNat 32])
      = (segs.map Segment.text).map (fun t => t.data ++ [Char.ofNat 32]) := by
    simp [List.map_map, Function.comp]
  rw [hmap, string_empty_data, List.nil_append]
  generalize segs.map Segment.text = ts
  cases ts with
  | nil => simp [sepBySpace, string_empty_data]
  | cons t ts => rw [flatten_map_sepBySpace t ts, stripChars_append_space]

theorem mem_dropWhile_of_neg {p : Char → Bool} {c : Char} (hc : p c = false) :
    ∀ l : List Char, c ∈ l → c ∈ l.dropWhile p := by
  intro l
  induction l with
  | nil => intro h; exact absurd h (List.not_mem_nil c)
  | cons a l ih =>
    intro h
    rw [List.dropWhile_cons]
    cases hpa : p a with
    | true =>
      rw [if_pos rfl]
      rcases List.mem_cons.mp h with h1 | h2
      · rw [h1] at hc; rw [hc] at hpa; exact absurd hpa (by simp)
      · exact ih h2
    | false =>
      rw [if_neg (by simp)]
      exact h

theorem stripChars_ne_nil {l : List Char} {c : Char} (hc : c ∈ l)
    (hw : c.isWhitespace = false) : stripChars l ≠ [] := by
  intro h
  have h1 : c ∈ l.reverse := List.mem_reverse.mpr hc
  have h2 := mem_dropWhile_of_neg hw _ h1
  have h3 : c ∈ (l.reverse.dropWhile Char.isWhitespace).reverse :=
    List.mem_reverse.mpr h2
  have h4 := mem_dropWhile_of_neg hw _ h3
  rw [stripChars] at h
  rw [h] at h4
  exact absurd h4 (List.not_mem_nil c)

theorem combineSegments_ne_empty (segs : List Segment) (seg : Segment)
    (c : Char) (hs : seg ∈ segs) (hc : c ∈ seg.text.data)
    (hw : c.isWhitespace = false) : combineSegments segs ≠ "" := by
  intro h
  have hd : stripChars ((segs.foldl (fun acc s => acc ++ s.text ++ " ") "").data) = [] := by
    have h2 := congrArg String.data h
    simpa [combineSegments, pyStrip, string_empty_data] using h2
  have hmem : c ∈ (segs.foldl (fun acc s => acc ++ s.text ++ " ") "").data := by
    rw [foldl_segs_data, string_empty_data, List.nil_append]
    exact List.mem_flatten.mpr
      ⟨seg.text.data ++ [Char.ofNat 32],
        List.mem_map.mpr ⟨seg, hs, rfl⟩,
        List.mem_append.mpr (Or.inl hc)⟩
  exact stripChars_ne_nil hmem hw hd

/-- C5 counterexample: the underlying model succeeds on the input while
yielding no segments (e.g. a silent recording), and
`transcribe_audio_file` returns empty text without raising — refuting
"whenever the underlying model succeeds, transcribe returns non-empty
text" and "never silently returns empty text". -/
theorem C5_counterexample :
    transcribe_audio_file (M := Unit) (some ()) (Except.ok ())
        (fun _ => Except.ok ([], infoC5))
      = (some (), Except.ok ("", mkMetadata infoC5)) := rfl

/-- C5 (amended): on any failure of the underlying transcription the
engine raises (with the "Error during transcription: " prefix) rather
than returning text; and whenever the model succeeds yielding at least
one segment containing a non-whitespace character, the returned text is
non-empty.  (A successful run yielding no segments, or only whitespace
ones, silently returns the empty string — see the counterexample.) -/
theorem C5_nonempty_or_raise :
    (∀ (M : Type) (m : M) (instantiate : Except String M)
        (run : M → Except String (List Segment × TranscriptionInfo)) (e : String),
        run m = .error e →
        transcribe_audio_file (some m) instantiate run
          = (some m, .error ("Error during transcription: " ++ e)))
    ∧ (∀ (M : Type) (m : M) (instantiate : Except String M)
        (run : M → Except String (List Segment × TranscriptionInfo))
        (segs : List Segment) (info : TranscriptionInfo) (seg : Segment) (c : Char),
        run m = .ok (segs, info) → seg ∈ segs → c ∈ seg.text.data →
        c.isWhitespace = false →
        transcribe_audio_file (some m) instantiate run
            = (some m, .ok (combineSegments segs, mkMetadata info))
          ∧ combineSegments segs ≠ "") := by
  constructor
  · intro M m instantiate run e hrun
    simp [transcribe_audio_file, load_model, hrun]
  · intro M m instantiate run segs info seg c hrun hs hc hw
    exact ⟨by simp [transcribe_audio_file, load_model, hrun],
      combineSegments_ne_empty segs seg c hs hc hw⟩

/-- C5 witness: a failing run raises with the transcription prefix; a
successful run whose single segment starts with `W` (a non-whitespace
character) yields non-empty text. -/
theorem C5_witness :
    runW5err () = Except.error "failed to decode audio"
    ∧ transcribe_audio_file (some ()) (Except.ok ()) runW5err
        = (some (), Except.error ("Error during transcription: " ++ "failed to decode audio"))
    ∧ runW5 () = Except.ok (segsW5, infoW5)
    ∧ ({ text := "We need Alice to finish the report." } : Segment) ∈ segsW5
    ∧ Char.ofNat 87 ∈ ({ text := "We need Alice to finish the report." } : Segment).text.data
    ∧ (Char.ofNat 87).isWhitespace = false
    ∧ (transcribe_audio_file (some ()) (Except.ok ()) runW5
          = (some (), Except.ok (combineSegments segsW5, mkMetadata infoW5))
        ∧ combineSegments segsW5 ≠ "") :=
  ⟨rfl,
   C5_nonempty_or_raise.1 Unit () (Except.ok ()) runW5err "failed to decode audio" rfl,
   rfl, by decide, by decide, by decide,
   C5_nonempty_or_raise.2 Unit () (Except.ok ()) runW5 segsW5 infoW5
     { text := "We need Alice to finish the report." } (Char.ofNat 87)
     rfl (by decide) (by decide) (by decide)⟩

/-- C6: for every finite segment sequence yielded by the model,
`transcribe_audio_file` returns (after fully consuming the sequence —
the result is a function of the entire list) text equal to the segment
texts concatenated in emission order, separated by a single space, with
leading and trailing whitespace stripped. -/
theorem C6_segment_concatenation :
    ∀ (M : Type) (m : M) (instantiate : Except String M)
      (run : M → Except String (List Segment × TranscriptionInfo))
      (segs : List Segment) (info : TranscriptionInfo),
      run m = .ok (segs, info) →
      transcribe_audio_file (some m) instantiate run
        = (some m,
            .ok (pyStrip (sepBySpace (segs.map Segment.text)), mkMetadata info)) := by
  intro M m instantiate run segs info hrun
  simp [transcribe_audio_file, load_model, hrun, combineSegments_eq_sepBySpace]

/-- C6 witness: two segments `"Hello"` and `"world."` produce exactly
`"Hello world."`. -/
theorem C6_witness :
    runW6 () = Except.ok (segsW6, infoW6)
    ∧ transcribe_audio_file (some ()) (Except.ok ()) runW6
        = (some (),
            Except.ok (pyStrip (sepBySpace (segsW6.map Segment.text)), mkMetadata infoW6))
    ∧ pyStrip (sepBySpace (segsW6.map Segment.text)) = "Hello world." :=
  ⟨rfl,
   C6_segment_concatenation Unit () (Except.ok ()) runW6 segsW6 infoW6 rfl,
   by decide⟩

/-- C7: `load_model` with the engine already loaded is a no-op returning
the cached model (whatever the instantiation environment would do), and
when the underlying model cannot be instantiated it raises the load
error carrying the underlying cause while the engine state remains
unloaded. -/
theorem C7_load_model :
    (∀ (M : Type) (m : M) (instantiate : Except String M),
        load_model (some m) instantiate = (some m, Except.ok m))
    ∧ (∀ (M : Type) (e : String),
        load_model (Option.none : Option M) (Except.error e)
          = (Option.none, Except.error ("Error loading Whisper model: " ++ e))) :=
  ⟨fun _ _ _ => rfl, fun _ _ => rfl⟩

/-- C8: the temp file is deleted on the success path and on a mid-decode
transcription failure, but when writing the uploaded bytes raises after
the temp file was created, both cleanup sites skip deletion
(`temp_file_path` is still `None`) and the file is left on disk — the
failing input for the claim's "absent on every exit path". -/
theorem C8_temp_file :
    transcribe_uploaded_file (M := Unit) (some ()) (Except.ok ())
        (fun _ => Except.ok ([{ text := "Hi" }], infoW8)) UploadOutcome.written
      = (false, some (), Except.ok (combineSegments [{ text := "Hi" }], mkMetadata infoW8))
    ∧ transcribe_uploaded_file (M := Unit) (some ()) (Except.ok ())
        (fun _ => Except.error "decode failed") UploadOutcome.written
      = (false, some (), Except.error "Error during transcription: decode failed")
    ∧ transcribe_uploaded_file (M := Unit) (some ()) (Except.ok ())
        (fun _ => Except.ok ([{ text := "Hi" }], infoW8))
        (UploadOutcome.writeFails "No space left on device")
      = (true, some (), Except.error "No space left on device") :=
  ⟨rfl, rfl, rfl⟩
